import Mathlib

/-!
# Verification of the AggreFi arbitrage-bot core

A shallow embedding, in Lean 4, of the quote-aggregation and round-trip
execution engine of the `aggrefi-bots` repository
(`src/helpers.py`, `src/classes/asset.py`, `src/classes/exceptions.py`,
`src/bots/arbitragetwoway.py`, `src/bots/arbitragethreeway.py`).

Modelling conventions:

* Python `Decimal` amounts are modelled as exact rationals (`ℚ`); on-chain
  scaled amounts as `Int`.  The 28-significant-digit context of Python's
  `Decimal` and the binary-float detour in
  `AlgoAsset.get_unscaled_from_scaled_amount` are not modelled: no claim in
  scope depends on rounding at that precision.
* Python exceptions are modelled by the `PyErr` type; a fallible computation
  returns `Except PyErr α`.  `sys.exit(n)` (which raises `SystemExit`, a
  `BaseException` that `except Exception` does NOT catch) is modelled as a
  distinct terminal outcome, separate from ordinary exceptions.
* External effects (adapter pool lookups, adapter quotes, transaction
  submission, ledger read-back) are modelled as oracle functions supplied as
  parameters; the control flow around them is translated from the source.
* The methods `AlgoAsset.get_scaled_amount` / `get_unscaled_from_scaled_amount`
  in `src/classes/asset.py` dereference `self.num_decimal_places`, an
  attribute that does not exist on the `AlgoAsset` dataclass (its field is
  named `decimals`), so as written they raise `AttributeError` on every call.
  They are embedded faithfully below and used faithfully throughout the
  quote-aggregation and best-quote-selection models (`get_swap_quotes`,
  `get_highest_swap_amount_out_from`), which therefore raise exactly where
  the source does.  Only the executors' settled-amount read-back paths
  (`submit_swap_attempt_*`, an idealization disclosed at those definitions)
  and the orchestrators' quote oracles use the intended semantics
  (`scaleAmt` / `unscaleAmt`, multiplication/division by `10^decimals` as the
  methods' docstrings state), so that the hypothesis-guarded control-flow
  claims can be settled about the logic they describe.
-/

/-- Python exceptions that the embedded code can raise. -/
inductive PyErr where
  /-- `AttributeError: ... has no attribute name` -/
  | attributeError (name : String)
  /-- `KeyError: key` from a dict subscript -/
  | keyError (key : String)
  /-- `UnboundLocalError: local variable name referenced before assignment` -/
  | unboundLocalError (name : String)
  /-- An `LPNotFoundError` subclass from `src/classes/exceptions.py`
      (`dex` is one of "algofi", "tinyman", "pactfi"). -/
  | lpNotFound (dex : String) (asset1_id asset2_id : Int)
  /-- An error class from `src/classes/exceptions.py` or an adapter library,
      identified by class name. -/
  | botError (cls : String)
  deriving DecidableEq, Repr

/-- Python's `int()` applied to an exact numeric value: truncation toward zero. -/
def pyInt (q : ℚ) : Int :=
  if 0 ≤ q then ⌊q⌋ else ⌈q⌉

/-- Source `src/classes/asset.py`: the `@dataclass AlgoAsset` (fields as declared). -/
structure AlgoAsset where
  id : String
  asset_name : String
  asset_code : String
  asset_onchain_id : Int
  decimals : Nat
  is_native : Bool
  is_active : Bool
  deriving DecidableEq, Repr

/-- Python attribute lookup for integer-valued attributes of an `AlgoAsset`
instance.  The dataclass declares exactly the fields `id`, `asset_name`,
`asset_code`, `asset_onchain_id`, `decimals`, `is_native`, `is_active` (plus
two methods); looking up any other name raises `AttributeError`.  In
particular `num_decimal_places` is not an attribute of `AlgoAsset`. -/
def AlgoAsset.lookupIntAttr (a : AlgoAsset) (name : String) : Except PyErr Int :=
  if name = "asset_onchain_id" then .ok a.asset_onchain_id
  else if name = "decimals" then .ok (a.decimals : Int)
  else .error (.attributeError name)

/-- Source `src/classes/asset.py` line 29:
`return int(amount * Decimal(10**self.num_decimal_places))`.
The attribute access `self.num_decimal_places` is evaluated first; the
arithmetic in the `.ok` branch is the expression that would be computed if the
attribute existed. -/
def AlgoAsset.get_scaled_amount (a : AlgoAsset) (amount : ℚ) : Except PyErr Int :=
  match a.lookupIntAttr "num_decimal_places" with
  | .error e => .error e
  | .ok d => .ok (pyInt (amount * (10 : ℚ) ^ d.toNat))

/-- Source `src/classes/asset.py` line 40:
`return Decimal(amount_scaled / (10**self.num_decimal_places))`.
Again `self.num_decimal_places` is evaluated first. -/
def AlgoAsset.get_unscaled_from_scaled_amount (a : AlgoAsset) (amount_scaled : Int) :
    Except PyErr ℚ :=
  match a.lookupIntAttr "num_decimal_places" with
  | .error e => .error e
  | .ok d => .ok ((amount_scaled : ℚ) / (10 : ℚ) ^ d.toNat)

/-- Intended semantics of `AlgoAsset.get_scaled_amount`, per its docstring
("integer representation of asset amount scaled by asset's decimals"):
`int(amount * 10**decimals)`. -/
def scaleAmt (decimals : Nat) (amount : ℚ) : Int :=
  pyInt (amount * (10 : ℚ) ^ decimals)

/-- Intended semantics of `AlgoAsset.get_unscaled_from_scaled_amount`, per its
docstring: the scaled integer divided by `10**decimals`. -/
def unscaleAmt (decimals : Nat) (amount_scaled : Int) : ℚ :=
  (amount_scaled : ℚ) / (10 : ℚ) ^ decimals

/-! ## Quote mappings and best-quote selection (`src/helpers.py`) -/

/-- A quote dictionary as built by `get_swap_quotes` for Algofi (keys
`amount_in`, `amount_out`, `amount_out_with_slippage`, `slippage`) and for
Pact (the same keys plus `prepared_swap`).  `has_prepared_swap` records
whether the `prepared_swap` key is present (true for Pact dicts only). -/
structure QuoteDict where
  amount_in : ℚ
  amount_out : ℚ
  amount_out_with_slippage : ℚ
  slippage : ℚ
  has_prepared_swap : Bool
  deriving DecidableEq, Repr

/-- The Tinyman quote object returned by `fetch_fixed_input_swap_quote`: an
SDK object (not a dict) carrying scaled `AssetAmount`s in `amount_out` and
`amount_out_with_slippage`.  We keep the two scaled integer amounts. -/
structure TinymanQuote where
  amount_out_scaled : Int
  amount_out_with_slippage_scaled : Int
  deriving DecidableEq, Repr

/-- The quote payload carried in a `SwapAmount.quote` field: either a plain
dict (Algofi / Pact quotes) or the Tinyman SDK quote object.  Subscripting a
Tinyman object or attribute-accessing a dict raises. -/
inductive QuotePayload where
  | dict (d : QuoteDict)
  | tinyman (t : TinymanQuote)
  deriving DecidableEq, Repr

/-- The mapping returned by `get_swap_quotes`: at most one entry per DEX name
("algofi", "tinyman", "pactfi"). -/
structure Quotes where
  algofi : Option QuoteDict
  tinyman : Option TinymanQuote
  pactfi : Option QuoteDict
  deriving DecidableEq, Repr

/-- Source `src/classes/asset.py`: the `@dataclass SwapAmount`. -/
structure SwapAmount where
  to_asset : AlgoAsset
  from_asset : AlgoAsset
  quote : QuotePayload
  amount_in : ℚ
  amount_out : ℚ
  amount_out_with_slippage : ℚ
  dex : String
  slippage : ℚ
  deriving DecidableEq, Repr

/-- The comparison set of a Tinyman-free quote mapping as used by
`get_highest_swap_amount_out`: winning-DEX label, payload and raw
`amount_out` per entry.  With a Tinyman entry present the source never
reaches the comparisons at all — computing the Tinyman comparison amounts
raises first (`src/helpers.py` lines 339-343, see the C2 theorem) — so no
comparison set exists for those mappings. -/
def Quotes.selEntries (q : Quotes) : List (String × QuotePayload × ℚ) :=
  (q.algofi.toList.map fun a => ("Algofi", QuotePayload.dict a, a.amount_out)) ++
    (q.pactfi.toList.map fun p => ("Pact", QuotePayload.dict p, p.amount_out))

/-- Source `src/helpers.py` lines 334-424, `get_highest_swap_amount_out`, given
the quote mapping `q` that `get_swap_quotes` returned.

Faithfulness notes:
* Lines 339-343: when a Tinyman entry is present, its comparison amounts are
  computed with `to_asset.get_unscaled_from_scaled_amount`, which always
  raises `AttributeError("num_decimal_places")` (see the C8 theorem).  The
  comparison chain below those calls is transcribed anyway but is
  unreachable.
* The source then tests the presence patterns of `{algofi, tinyman, pactfi}`
  with mutually exclusive `if` statements and `>=` comparisons on the raw
  `amount_out` values.
* With an empty mapping no branch assigns the locals, and the final
  `return SwapAmount(to_asset=..., from_asset=..., quote=quote, ...,
  amount_out=higher_amt, ...)` at line 423 evaluates its keyword arguments
  left to right, so the first unbound local hit is `quote` (third argument),
  before `higher_amt`: the call raises `UnboundLocalError("quote")`. -/
def get_highest_swap_amount_out_from (q : Quotes) (from_asset to_asset : AlgoAsset)
    (asset_in_amt : ℚ) (slippage : ℚ) : Except PyErr SwapAmount :=
  match q.tinyman with
  | some t =>
    match to_asset.get_unscaled_from_scaled_amount t.amount_out_scaled with
    | .error e => .error e
    | .ok tinyman_amount_out =>
      match to_asset.get_unscaled_from_scaled_amount t.amount_out_with_slippage_scaled with
      | .error e => .error e
      | .ok tinyman_amount_out_with_slippage =>
        match q.algofi, q.pactfi with
        | some a, some p =>
          if a.amount_out ≥ tinyman_amount_out ∧ a.amount_out ≥ p.amount_out then
            .ok ⟨to_asset, from_asset, .dict a, asset_in_amt, a.amount_out,
              a.amount_out_with_slippage, "Algofi", slippage⟩
          else if p.amount_out ≥ tinyman_amount_out ∧ p.amount_out ≥ a.amount_out then
            .ok ⟨to_asset, from_asset, .dict p, asset_in_amt, p.amount_out,
              p.amount_out_with_slippage, "Pact", slippage⟩
          else
            .ok ⟨to_asset, from_asset, .tinyman t, asset_in_amt, tinyman_amount_out,
              tinyman_amount_out_with_slippage, "Tinyman", slippage⟩
        | some a, none =>
          if a.amount_out ≥ tinyman_amount_out then
            .ok ⟨to_asset, from_asset, .dict a, asset_in_amt, a.amount_out,
              a.amount_out_with_slippage, "Algofi", slippage⟩
          else
            .ok ⟨to_asset, from_asset, .tinyman t, asset_in_amt, tinyman_amount_out,
              tinyman_amount_out_with_slippage, "Tinyman", slippage⟩
        | none, some p =>
          if p.amount_out ≥ tinyman_amount_out then
            .ok ⟨to_asset, from_asset, .dict p, asset_in_amt, p.amount_out,
              p.amount_out_with_slippage, "Pact", slippage⟩
          else
            .ok ⟨to_asset, from_asset, .tinyman t, asset_in_amt, tinyman_amount_out,
              tinyman_amount_out_with_slippage, "Tinyman", slippage⟩
        | none, none =>
          .ok ⟨to_asset, from_asset, .tinyman t, asset_in_amt, tinyman_amount_out,
            tinyman_amount_out_with_slippage, "Tinyman", slippage⟩
  | none =>
    match q.algofi, q.pactfi with
    | some a, some p =>
      if a.amount_out ≥ p.amount_out then
        .ok ⟨to_asset, from_asset, .dict a, asset_in_amt, a.amount_out,
          a.amount_out_with_slippage, "Algofi", slippage⟩
      else
        .ok ⟨to_asset, from_asset, .dict p, asset_in_amt, p.amount_out,
          p.amount_out_with_slippage, "Pact", slippage⟩
    | some a, none =>
      .ok ⟨to_asset, from_asset, .dict a, asset_in_amt, a.amount_out,
        a.amount_out_with_slippage, "Algofi", slippage⟩
    | none, some p =>
      .ok ⟨to_asset, from_asset, .dict p, asset_in_amt, p.amount_out,
        p.amount_out_with_slippage, "Pact", slippage⟩
    | none, none => .error (.unboundLocalError "quote")

/-! ## Pool lookup and quote aggregation (`src/helpers.py` lines 159-331)

The adapter SDK calls (pool lookup, quoting) are external network
operations; each pool value carries, as an oracle function, the responses
the adapter would give.  The control flow around them is the source's. -/

/-- Response of Algofi's `pool.get_swap_exact_for_quote`: the two deltas. -/
structure AlgofiQuoteResult where
  asset1_delta : Int
  asset2_delta : Int

/-- An Algofi pool handle: its `asset1.asset_id` and its quoting oracle
`(from_asset_id, scaled_amount_in) ↦ quote`. -/
structure AlgofiPool where
  asset1_id : Int
  quoteFor : Int → Int → AlgofiQuoteResult

/-- A Tinyman pool handle: its `fetch_fixed_input_swap_quote` oracle
`(from_asset_id, scaled_amount_in, slippage) ↦ quote object`. -/
structure TinymanPool where
  quoteFor : Int → Int → ℚ → TinymanQuote

/-- Effect of a prepared Pact swap (`swap.effect`). -/
structure PactSwapEffect where
  amount_received : Int
  minimum_amount_received : Int

/-- A Pact pool handle: its `prepare_swap(...).effect` oracle
`(asset_id, scaled_amount_in, slippage_pct) ↦ effect`. -/
structure PactPool where
  swapEffectFor : Int → Int → ℚ → PactSwapEffect

/-- The mapping returned by `get_liquidity_pools`: at most one pool per DEX
name ("algofi", "tinyman", "pactfi"). -/
structure Pools where
  algofi : Option AlgofiPool
  tinyman : Option TinymanPool
  pactfi : Option PactPool

/-- Outcome of `amm_clients["algofi"].get_pool(...)` for the pair. -/
inductive AlgofiLookup where
  /-- `get_pool` raised an exception. -/
  | raisesExc
  /-- `get_pool` returned a pool with `pool_status == PoolStatus.UNINITIALIZED`. -/
  | uninitialized
  /-- `get_pool` returned an initialized pool. -/
  | found (p : AlgofiPool)

/-- Outcome of Tinyman's `fetch_asset`/`fetch_pool` for the pair. -/
inductive TinymanLookup where
  /-- `fetch_asset` or `fetch_pool` raised an exception. -/
  | raisesExc
  /-- `fetch_pool` returned a pool with `exists == False`. -/
  | notExists
  /-- `fetch_pool` returned an existing pool. -/
  | found (p : TinymanPool)

/-- Outcome of Pact's `fetch_asset`/`fetch_pools_by_assets(...)[0]`. -/
inductive PactLookup where
  /-- One of the calls raised (including an empty pool list). -/
  | raisesExc
  /-- A pool was found. -/
  | found (p : PactPool)

/-- The `amm_clients` mapping together with each configured adapter's
pool-lookup response for the asset pair at hand.  `none` means the DEX name
is absent from `amm_clients`. -/
structure AmmClients where
  algofi : Option AlgofiLookup
  tinyman : Option TinymanLookup
  pactfi : Option PactLookup

/-- Source `src/helpers.py` lines 159-241, `get_liquidity_pools`.

Control-flow notes, straight from the source:
* In the algofi branch the ALGO id `0` is rewritten to Algofi's `1` (and the
  tinyman/pactfi branches rewrite `1` back to `0`); the rewrites mutate the
  local ids, so they thread through the later branches.
* `pool_type` is computed by `is_algofi_nanoswap_stable_asset_pair` BEFORE the
  `try:`; that helper raises `AlgoTradeBotError` when the two (rewritten) ids
  are equal (line 145), and that exception is not caught.
* In the tinyman branch, the `try/except` around `fetch_pool` does not bind
  `tinyman_pool` on failure; when `raise_error_on_missing_lp` is false the
  subsequent `if not tinyman_pool.exists` (line 218) therefore raises
  `UnboundLocalError`, which nothing catches.
* Algofi/pactfi lookup failures with the flag false simply leave that DEX out
  of the result. -/
def get_liquidity_pools (clients : AmmClients) (asset1_id asset2_id : Int)
    (raise_error_on_missing_lp : Bool) : Except PyErr Pools :=
  let a1 := if clients.algofi.isSome ∧ asset1_id = 0 then 1 else asset1_id
  let a2 := if clients.algofi.isSome ∧ asset2_id = 0 then 1 else asset2_id
  let algofiStep : Except PyErr (Option AlgofiPool) :=
    match clients.algofi with
    | none => .ok none
    | some lk =>
      if a1 = a2 then .error (.botError "AlgoTradeBotError")
      else
        match lk with
        | .found p => .ok (some p)
        | .uninitialized =>
          if raise_error_on_missing_lp then .error (.lpNotFound "algofi" a1 a2) else .ok none
        | .raisesExc =>
          if raise_error_on_missing_lp then .error (.lpNotFound "algofi" a1 a2) else .ok none
  match algofiStep with
  | .error e => .error e
  | .ok algofiPool =>
    let b1 := if clients.tinyman.isSome ∧ a1 = 1 then 0 else a1
    let b2 := if clients.tinyman.isSome ∧ a2 = 1 then 0 else a2
    let tinymanStep : Except PyErr (Option TinymanPool) :=
      match clients.tinyman with
      | none => .ok none
      | some .raisesExc =>
        if raise_error_on_missing_lp then .error (.lpNotFound "tinyman" b1 b2)
        else .error (.unboundLocalError "tinyman_pool")
      | some .notExists =>
        if raise_error_on_missing_lp then .error (.lpNotFound "tinyman" b1 b2) else .ok none
      | some (.found p) => .ok (some p)
    match tinymanStep with
    | .error e => .error e
    | .ok tinymanPool =>
      let c1 := if clients.pactfi.isSome ∧ b1 = 1 then 0 else b1
      let c2 := if clients.pactfi.isSome ∧ b2 = 1 then 0 else b2
      let pactStep : Except PyErr (Option PactPool) :=
        match clients.pactfi with
        | none => .ok none
        | some .raisesExc =>
          if raise_error_on_missing_lp then .error (.lpNotFound "pactfi" c1 c2) else .ok none
        | some (.found p) => .ok (some p)
      match pactStep with
      | .error e => .error e
      | .ok pactPool => .ok ⟨algofiPool, tinymanPool, pactPool⟩

/-- Source `src/helpers.py` lines 244-331, `get_swap_quotes`.

Faithfulness notes:
* Line 260, `asset_in_amt_scaled = from_asset.get_scaled_amount(asset_in_amt)`,
  is the first statement after the locals; this method always raises
  `AttributeError("num_decimal_places")` (see the C8 theorem), so no call
  ever gets past it and the function can never return a quote mapping.  The
  rest of the body is transcribed below but is unreachable.
* Line 265 runs `pools["pactfi"].update_state()` unconditionally — a dict
  subscript that would raise `KeyError('pactfi')` whenever the pactfi pool is
  absent from the mapping, regardless of which other pools are present.
* There is no per-adapter exception handling anywhere in this function; the
  Algofi (lines 273-277) and Pact (lines 317-320) branches call the same
  always-raising unscale method on the quoted deltas, while the Tinyman
  branch (lines 289-303) stores the SDK quote object without unscaling. -/
def get_swap_quotes (pools : Pools) (from_asset to_asset : AlgoAsset)
    (asset_in_amt : ℚ) (slippage : ℚ) : Except PyErr Quotes :=
  match from_asset.get_scaled_amount asset_in_amt with
  | .error e => .error e
  | .ok asset_in_amt_scaled =>
    match pools.pactfi with
    | none => .error (.keyError "pactfi")
    | some pactPool =>
      let algofiStep : Except PyErr (Option QuoteDict) :=
        match pools.algofi with
        | none => .ok none
        | some pl =>
          let from_asset_id : Int :=
            if from_asset.asset_onchain_id = 0 then 1 else from_asset.asset_onchain_id
          let qr := pl.quoteFor from_asset_id asset_in_amt_scaled
          let delta :=
            if from_asset_id = pl.asset1_id then qr.asset2_delta else qr.asset1_delta
          match to_asset.get_unscaled_from_scaled_amount delta with
          | .error e => .error e
          | .ok amount_out =>
            .ok (some ⟨asset_in_amt, amount_out, amount_out * (1 - slippage), slippage, false⟩)
      match algofiStep with
      | .error e => .error e
      | .ok algofiEntry =>
        let tinymanEntry : Option TinymanQuote := pools.tinyman.map fun pl =>
          let from_asset_id : Int :=
            if from_asset.asset_onchain_id = 1 then 0 else from_asset.asset_onchain_id
          pl.quoteFor from_asset_id asset_in_amt_scaled slippage
        let from_asset_id : Int :=
          if from_asset.asset_onchain_id = 1 then 0 else from_asset.asset_onchain_id
        let eff := pactPool.swapEffectFor from_asset_id asset_in_amt_scaled (slippage * 100)
        match to_asset.get_unscaled_from_scaled_amount eff.amount_received,
            to_asset.get_unscaled_from_scaled_amount eff.minimum_amount_received with
        | .error e, _ => .error e
        | .ok _, .error e => .error e
        | .ok amount_out, .ok amount_out_with_slippage =>
          .ok ⟨algofiEntry, tinymanEntry,
            some ⟨asset_in_amt, amount_out, amount_out_with_slippage, slippage, true⟩⟩

/-- Source `src/helpers.py` lines 334-337: `get_highest_swap_amount_out` first calls
`get_swap_quotes` and then selects over the resulting mapping. -/
def get_highest_swap_amount_out (pools : Pools) (from_asset to_asset : AlgoAsset)
    (asset_in_amt : ℚ) (slippage : ℚ) : Except PyErr SwapAmount :=
  match get_swap_quotes pools from_asset to_asset asset_in_amt slippage with
  | .error e => .error e
  | .ok q => get_highest_swap_amount_out_from q from_asset to_asset asset_in_amt slippage

/-! ## Leg execution (`submit_swap` in both bots) -/

/-- Python's `str.lower()` for the ASCII DEX labels used here (core's
`String.toLower` is not kernel-reducible, so we map `Char.toLower` over the
characters ourselves). -/
def pyLower (s : String) : String := String.mk (s.data.map Char.toLower)

/-- Result of a Python call that can return, raise, or call `sys.exit`. -/
inductive PyResult (α : Type) where
  | ok (a : α)
  | exc (e : PyErr)
  | exit (code : Nat)
  deriving DecidableEq, Repr

/-- External effects of one execution attempt: transaction build/sign/submit
results and ledger read-back, per DEX, as oracle functions of the swap being
carried out. -/
structure ExecEnv where
  /-- Algofi: `some e` = an exception during txn build / sign / submit; `none` = confirmed. -/
  algofiSubmit : SwapAmount → Option PyErr
  /-- Algofi: result of `get_algofi_swap_amount_out_scaled` (ledger read-back; may be `None`). -/
  algofiLedgerAmt : SwapAmount → Option Int
  /-- Pact (two-way bot only): `some e` = an exception while sending the tx group. -/
  pactSubmit : SwapAmount → Option PyErr
  /-- Pact: did `transaction.wait_for_confirmation` succeed?  On an exception the
      two-way bot prints it and calls `sys.exit(1)` (lines 98-103). -/
  pactConfirm : SwapAmount → Bool
  /-- Pact: result of `get_pact_swap_amount_out_scaled` (ledger read-back; may be `None`). -/
  pactLedgerAmt : SwapAmount → Option Int
  /-- Tinyman: `some e` = an exception during prepare / sign / submit. -/
  tinymanSubmit : SwapAmount → Option PyErr
  /-- Tinyman: excess amount remaining for the `to_asset` after the swap, if any. -/
  tinymanExcess : SwapAmount → Option Int
  /-- Tinyman: `some e` = an exception while redeeming the excess. -/
  tinymanRedeem : SwapAmount → Option PyErr

/-- One iteration body of the `while` loop in the three-way bot's
`submit_swap` (`src/bots/arbitragethreeway.py` lines 49-123).  The dispatch is
`if dex == "algofi": ... else: ...` — the `else` is the Tinyman execution
path, taken for every non-algofi `dex` value, including "pact".  Line 88
reads `swap_to_carry_out.quote.amount_out_with_slippage.amount`, an attribute
chain that exists on the Tinyman SDK quote object but not on the dict quotes
built for Algofi and Pact (`AttributeError`); symmetrically line 53 subscripts
the quote (`quote["amount_out_with_slippage"]`), a `TypeError` on the
(non-subscriptable) Tinyman object.

Idealization (disclosed): on the success paths the settled amount is
unscaled with the intended semantics (`unscaleAmt`); in the source these
lines (73-82 algofi, 114-117 tinyman) call the always-raising
`AlgoAsset.get_unscaled_from_scaled_amount` (see C8), which would turn every
on-chain success into a caught exception and a retry.  The claims proved
about the executor (C9, C10) concern its failure and dispatch behavior and
are hypothesis-guarded, so they do not depend on this idealization. -/
def submit_swap_attempt_threeway (env : ExecEnv) (s : SwapAmount) : PyResult SwapAmount :=
  let dex := pyLower s.dex
  if dex = "algofi" then
    match s.quote with
    | .tinyman _ => .exc (.botError "TypeError")
    | .dict q =>
      match env.algofiSubmit s with
      | some e => .exc e
      | none =>
        let amount_out :=
          match env.algofiLedgerAmt s with
          | some amt => unscaleAmt s.to_asset.decimals amt
          | none => q.amount_out_with_slippage
        .ok ⟨s.to_asset, s.from_asset, s.quote, s.amount_in, amount_out,
          q.amount_out_with_slippage, dex, s.slippage⟩
  else
    match s.quote with
    | .dict _ => .exc (.attributeError "amount_out_with_slippage")
    | .tinyman t =>
      match env.tinymanSubmit s with
      | some e => .exc e
      | none =>
        let base := t.amount_out_with_slippage_scaled
        match env.tinymanExcess s with
        | some ex =>
          match env.tinymanRedeem s with
          | some e => .exc e
          | none =>
            .ok ⟨s.to_asset, s.from_asset, s.quote, s.amount_in,
              unscaleAmt s.to_asset.decimals (base + ex),
              unscaleAmt s.to_asset.decimals base, dex, s.slippage⟩
        | none =>
          .ok ⟨s.to_asset, s.from_asset, s.quote, s.amount_in,
            unscaleAmt s.to_asset.decimals base,
            unscaleAmt s.to_asset.decimals base, dex, s.slippage⟩

/-- One iteration body of the `while` loop in the two-way bot's `submit_swap`
(`src/bots/arbitragetwoway.py` lines 50-154).  Identical to the three-way
body except that it has a dedicated `elif dex == "pact"` branch, which reads
the dict keys `amount_out_with_slippage` and `prepared_swap`, sends the
prepared transaction group, and on a confirmation failure prints the error
and calls `sys.exit(1)` (lines 98-103). -/
def submit_swap_attempt_twoway (env : ExecEnv) (s : SwapAmount) : PyResult SwapAmount :=
  let dex := pyLower s.dex
  if dex = "algofi" then
    match s.quote with
    | .tinyman _ => .exc (.botError "TypeError")
    | .dict q =>
      match env.algofiSubmit s with
      | some e => .exc e
      | none =>
        let amount_out :=
          match env.algofiLedgerAmt s with
          | some amt => unscaleAmt s.to_asset.decimals amt
          | none => q.amount_out_with_slippage
        .ok ⟨s.to_asset, s.from_asset, s.quote, s.amount_in, amount_out,
          q.amount_out_with_slippage, dex, s.slippage⟩
  else if dex = "pact" then
    match s.quote with
    | .tinyman _ => .exc (.botError "TypeError")
    | .dict q =>
      if q.has_prepared_swap = false then .exc (.keyError "prepared_swap")
      else
        match env.pactSubmit s with
        | some e => .exc e
        | none =>
          if env.pactConfirm s = false then .exit 1
          else
            let amount_out :=
              match env.pactLedgerAmt s with
              | some amt => unscaleAmt s.to_asset.decimals amt
              | none => q.amount_out_with_slippage
            .ok ⟨s.to_asset, s.from_asset, s.quote, s.amount_in, amount_out,
              q.amount_out_with_slippage, dex, s.slippage⟩
  else
    match s.quote with
    | .dict _ => .exc (.attributeError "amount_out_with_slippage")
    | .tinyman t =>
      match env.tinymanSubmit s with
      | some e => .exc e
      | none =>
        let base := t.amount_out_with_slippage_scaled
        match env.tinymanExcess s with
        | some ex =>
          match env.tinymanRedeem s with
          | some e => .exc e
          | none =>
            .ok ⟨s.to_asset, s.from_asset, s.quote, s.amount_in,
              unscaleAmt s.to_asset.decimals (base + ex),
              unscaleAmt s.to_asset.decimals base, dex, s.slippage⟩
        | none =>
          .ok ⟨s.to_asset, s.from_asset, s.quote, s.amount_in,
            unscaleAmt s.to_asset.decimals base,
            unscaleAmt s.to_asset.decimals base, dex, s.slippage⟩

/-- What a `submit_swap` call can be observed doing after a given number of
loop iterations. -/
inductive SubmitResult where
  /-- The function returned (`swap_carried_out`, which is `None` when the
      single non-requoting attempt failed). -/
  | done (outcome : Option SwapAmount)
  /-- An exception escaped (possible only from the requote calls inside the
      `except` handler, where nothing catches it). -/
  | raised (e : PyErr)
  /-- `sys.exit` was called inside an attempt. -/
  | exited (code : Nat)
  /-- The loop is still running after the given iteration budget, currently
      about to attempt `s`. -/
  | spinning (s : SwapAmount)

/-- The `while leave_loop is False` loop of `submit_swap` (both bots share the
shape): try an attempt; on success return the outcome; on an exception,
either requote (re-resolve pools and re-run best-quote selection for the SAME
`amount_in` and slippage — lines 125-129 / 157-161) and loop, or, when
`retry_with_new_quote` is false, return `None`.  The loop itself has no
iteration cap; `fuel` is the observation budget of the model, not a bound in
the code. -/
def submit_swap_loop (attempt : SwapAmount → PyResult SwapAmount)
    (requote : SwapAmount → Except PyErr SwapAmount)
    (retry_with_new_quote : Bool) : Nat → SwapAmount → SubmitResult
  | 0, s => .spinning s
  | fuel + 1, s =>
    match attempt s with
    | .ok outcome => .done (some outcome)
    | .exit code => .exited code
    | .exc _ =>
      if retry_with_new_quote then
        match requote s with
        | .ok s2 => submit_swap_loop attempt requote retry_with_new_quote fuel s2
        | .error e => .raised e
      else .done none

/-- The requote computation in the `except` handler: `get_liquidity_pools`
(with its default `raise_error_on_missing_lp=True`) on the swap's asset pair,
then `get_highest_swap_amount_out` for the swap's own `amount_in` and
slippage. -/
def requote_step (clients : AmmClients) (s : SwapAmount) : Except PyErr SwapAmount :=
  match get_liquidity_pools clients s.from_asset.asset_onchain_id
      s.to_asset.asset_onchain_id true with
  | .error e => .error e
  | .ok pools =>
    get_highest_swap_amount_out pools s.from_asset s.to_asset s.amount_in s.slippage

/-! ## Round-trip orchestration (`do_round_trip` in both bots) -/

/-- One orchestrator-level `submit_swap` invocation: which swap was handed to
the executor, and with which `retry_with_new_quote` flag. -/
structure SubmitCall where
  details : SwapAmount
  allow_requote : Bool
  deriving DecidableEq, Repr

/-- Oracles the orchestrator works against within one round trip:
`quotesFor from to amt` is the quote mapping that `get_swap_quotes` produces
for a leg (the liquidity pools fetched at the start of the round are folded
in; an LP-lookup failure would raise before leg 1 and is outside the claims
modelled here), and `submit` is the observable result of a full
`submit_swap` call (`.ok none` = returned `None`; nontermination of the
unbounded requote loop is treated separately, see `submit_swap_loop`). -/
structure OrchEnv where
  quotesFor : AlgoAsset → AlgoAsset → ℚ → Quotes
  submit : SwapAmount → Bool → PyResult (Option SwapAmount)

/-- A leg quote as the orchestrator obtains it: best-quote selection over the
mapping the DEXs return for this pair at this input amount. -/
def legQuote (env : OrchEnv) (from_asset to_asset : AlgoAsset) (amt slippage : ℚ) :
    Except PyErr SwapAmount :=
  get_highest_swap_amount_out_from (env.quotesFor from_asset to_asset amt)
    from_asset to_asset amt slippage

/-- How a `do_round_trip` call ends.  For the two-way bot, which returns
`None` on every normal path, `.ret true` marks a normal return; for the
three-way helper, `.ret b` is its boolean return value. -/
inductive OrchResult where
  /-- Normal return. -/
  | ret (b : Bool)
  /-- An uncaught exception propagated. -/
  | raised (e : PyErr)
  /-- `sys.exit(code)` was reached (`SystemExit` propagates, uncaught). -/
  | exited (code : Nat)
  deriving DecidableEq, Repr

/-- Source `src/bots/arbitragetwoway.py` lines 168-238, `do_round_trip`: quote leg 1
at `trade_amt`, quote leg 2 at leg 1's quoted `amount_out`, and iff
`swap_amount_2.amount_out >= trade_amt + min_profit` execute: leg 1 with
requoting disabled (a `None` outcome just returns), then leg 2 re-quoted at
the settled `swap_carried_out.amount_out` and submitted with requoting
enabled (a `None` outcome reaches `sys.exit(1)`, line 236).  The returned
list records the `submit_swap` calls in order. -/
def do_round_trip2 (env : OrchEnv) (A B : AlgoAsset) (trade_amt min_profit slippage : ℚ) :
    OrchResult × List SubmitCall :=
  match legQuote env A B trade_amt slippage with
  | .error e => (.raised e, [])
  | .ok swap_amount_1 =>
    match legQuote env B A swap_amount_1.amount_out slippage with
    | .error e => (.raised e, [])
    | .ok swap_amount_2 =>
      if swap_amount_2.amount_out ≥ trade_amt + min_profit then
        match env.submit swap_amount_1 false with
        | .exc e => (.raised e, [⟨swap_amount_1, false⟩])
        | .exit c => (.exited c, [⟨swap_amount_1, false⟩])
        | .ok none => (.ret true, [⟨swap_amount_1, false⟩])
        | .ok (some out1) =>
          match legQuote env B A out1.amount_out slippage with
          | .error e => (.raised e, [⟨swap_amount_1, false⟩])
          | .ok s2 =>
            match env.submit s2 true with
            | .exc e => (.raised e, [⟨swap_amount_1, false⟩, ⟨s2, true⟩])
            | .exit c => (.exited c, [⟨swap_amount_1, false⟩, ⟨s2, true⟩])
            | .ok none => (.exited 1, [⟨swap_amount_1, false⟩, ⟨s2, true⟩])
            | .ok (some _) => (.ret true, [⟨swap_amount_1, false⟩, ⟨s2, true⟩])
      else (.ret true, [])

/-- Source `src/bots/arbitragethreeway.py` lines 136-244, `do_round_trip_helper` for
the cycle `A → B → C → A`: quote the three legs, each at the previous leg's
quoted `amount_out`; iff `swap_amount_3.amount_out >= trade_amt + min_profit`
execute: leg 1 with requoting disabled (`None` outcome returns `False`), then
legs 2 and 3 each re-quoted at the previous settled `amount_out` and
submitted with requoting enabled (a `None` outcome from either reaches
`sys.exit(1)`, lines 223/239); return `True` after leg 3. -/
def do_round_trip_helper (env : OrchEnv) (A B C : AlgoAsset)
    (trade_amt min_profit slippage : ℚ) : OrchResult × List SubmitCall :=
  match legQuote env A B trade_amt slippage with
  | .error e => (.raised e, [])
  | .ok swap_amount_1 =>
    match legQuote env B C swap_amount_1.amount_out slippage with
    | .error e => (.raised e, [])
    | .ok swap_amount_2 =>
      match legQuote env C A swap_amount_2.amount_out slippage with
      | .error e => (.raised e, [])
      | .ok swap_amount_3 =>
        if swap_amount_3.amount_out ≥ trade_amt + min_profit then
          match env.submit swap_amount_1 false with
          | .exc e => (.raised e, [⟨swap_amount_1, false⟩])
          | .exit c => (.exited c, [⟨swap_amount_1, false⟩])
          | .ok none => (.ret false, [⟨swap_amount_1, false⟩])
          | .ok (some out1) =>
            match legQuote env B C out1.amount_out slippage with
            | .error e => (.raised e, [⟨swap_amount_1, false⟩])
            | .ok s2 =>
              match env.submit s2 true with
              | .exc e => (.raised e, [⟨swap_amount_1, false⟩, ⟨s2, true⟩])
              | .exit c => (.exited c, [⟨swap_amount_1, false⟩, ⟨s2, true⟩])
              | .ok none => (.exited 1, [⟨swap_amount_1, false⟩, ⟨s2, true⟩])
              | .ok (some out2) =>
                match legQuote env C A out2.amount_out slippage with
                | .error e => (.raised e, [⟨swap_amount_1, false⟩, ⟨s2, true⟩])
                | .ok s3 =>
                  match env.submit s3 true with
                  | .exc e => (.raised e, [⟨swap_amount_1, false⟩, ⟨s2, true⟩, ⟨s3, true⟩])
                  | .exit c => (.exited c, [⟨swap_amount_1, false⟩, ⟨s2, true⟩, ⟨s3, true⟩])
                  | .ok none => (.exited 1, [⟨swap_amount_1, false⟩, ⟨s2, true⟩, ⟨s3, true⟩])
                  | .ok (some _) =>
                    (.ret true, [⟨swap_amount_1, false⟩, ⟨s2, true⟩, ⟨s3, true⟩])
        else (.ret false, [])

/-- Source `src/bots/arbitragethreeway.py` lines 247-255, `do_round_trip`: try the
cycle `A → B → C → A`; only when it returns `False` (arbitrage not
fulfilled), try the reverse cycle `A → C → B → A`.  Exceptions and
`sys.exit` propagate. -/
def do_round_trip3 (env : OrchEnv) (A B C : AlgoAsset)
    (trade_amt min_profit slippage : ℚ) : OrchResult × List SubmitCall :=
  match do_round_trip_helper env A B C trade_amt min_profit slippage with
  | (.ret false, t1) =>
    match do_round_trip_helper env A C B trade_amt min_profit slippage with
    | (r2, t2) => (r2, t1 ++ t2)
  | r => r

/-- What the `while True` loop in `run_bot` does with one `do_round_trip`
outcome (`src/bots/arbitragethreeway.py` lines 274-282, and the same shape in
the two-way bot): `except Exception` absorbs ordinary exceptions and the loop
continues, but `SystemExit` from `sys.exit` is not an `Exception`, so it
propagates and the process stops. -/
inductive BotStep where
  | continueLoop
  | processExit (code : Nat)
  deriving DecidableEq, Repr

/-- The dispatch just described. -/
def run_bot_iteration : OrchResult → BotStep
  | .ret _ => .continueLoop
  | .raised _ => .continueLoop
  | .exited c => .processExit c

/-! ## Concrete fixtures (used by witnesses and counterexamples) -/

/-- A test asset. -/
def wA : AlgoAsset := ⟨"a", "Asset A", "AAA", 10, 6, false, true⟩

/-- A test asset. -/
def wB : AlgoAsset := ⟨"b", "Asset B", "BBB", 11, 6, false, true⟩

/-- A test asset. -/
def wC : AlgoAsset := ⟨"c", "Asset C", "CCC", 12, 6, false, true⟩

/-- A slippage-free Algofi-style quote dict for tests. -/
def wDict (ain aout : ℚ) : QuoteDict := ⟨ain, aout, aout, 0, false⟩

/-- Per-pair quoted outputs realizing the spec's two-way scenario
(50 AAA → 60 BBB → 52 AAA) and a three-way cycle that closes at 52. -/
def profitTable (fa ta : AlgoAsset) : ℚ :=
  if fa.asset_onchain_id = 10 ∧ ta.asset_onchain_id = 11 then 60
  else if fa.asset_onchain_id = 11 ∧ ta.asset_onchain_id = 12 then 58
  else if fa.asset_onchain_id = 12 ∧ ta.asset_onchain_id = 10 then 52
  else if fa.asset_onchain_id = 11 ∧ ta.asset_onchain_id = 10 then 52
  else 0

/-- Per-pair quoted outputs realizing the spec's direction scenario: the cycle
A→B→C→A closes at 49 (unprofitable at `min_profit = 1`), the reverse cycle
A→C→B→A closes at 52 (profitable). -/
def directionTable (fa ta : AlgoAsset) : ℚ :=
  if fa.asset_onchain_id = 10 ∧ ta.asset_onchain_id = 11 then 60
  else if fa.asset_onchain_id = 11 ∧ ta.asset_onchain_id = 12 then 58
  else if fa.asset_onchain_id = 12 ∧ ta.asset_onchain_id = 10 then 49
  else if fa.asset_onchain_id = 10 ∧ ta.asset_onchain_id = 12 then 55
  else if fa.asset_onchain_id = 12 ∧ ta.asset_onchain_id = 11 then 57
  else if fa.asset_onchain_id = 11 ∧ ta.asset_onchain_id = 10 then 52
  else 0

/-- Orchestrator environment for the profitable scenarios: every leg quotes a
single Algofi entry per `profitTable`, and every submission settles at the
quoted amount. -/
def envProfit : OrchEnv :=
  { quotesFor := fun fa ta amt => ⟨some (wDict amt (profitTable fa ta)), none, none⟩
    submit := fun s _ => .ok (some s) }

/-- Orchestrator environment in which every requote-enabled submission
terminates without an outcome (and leg 1 succeeds). -/
def envLeg2Fails : OrchEnv :=
  { quotesFor := fun fa ta amt => ⟨some (wDict amt (profitTable fa ta)), none, none⟩
    submit := fun s b => if b then .ok none else .ok (some s) }

/-- Orchestrator environment in which legs 1 and 2 settle at the quoted
amount but the leg-3 submission (the one whose `from_asset` is the third
asset, id 12) terminates without an outcome. -/
def envLeg3Fails : OrchEnv :=
  { quotesFor := fun fa ta amt => ⟨some (wDict amt (profitTable fa ta)), none, none⟩
    submit := fun s _ =>
      if s.from_asset.asset_onchain_id = 12 then .ok none else .ok (some s) }

/-- A Tinyman quote object for tests. -/
def tQuote : TinymanQuote := ⟨90000000, 89000000⟩

/-- Orchestrator environment for the two-direction scenario
(`directionTable`); submissions settle at the quoted amount. -/
def envDirection : OrchEnv :=
  { quotesFor := fun fa ta amt => ⟨some (wDict amt (directionTable fa ta)), none, none⟩
    submit := fun s _ => .ok (some s) }

/-- A quote mapping with an Algofi entry (out 100) and a Pact entry (out 95). -/
def qAlgofiPact : Quotes := ⟨some (wDict 50 100), none, some (wDict 50 95)⟩

/-- A Pact-style quote dict (carries `prepared_swap`). -/
def pDict : QuoteDict := ⟨50, 95, 94, 0, true⟩

/-- A quote mapping in which only Pact quoted. -/
def qPactOnly : Quotes := ⟨none, none, some pDict⟩

/-- The selection result on `qPactOnly` (winning DEX "Pact"). -/
def sPact : SwapAmount := ⟨wB, wA, .dict pDict, 50, 95, 94, "Pact", 0⟩

/-- Execution-environment oracle under which every external call succeeds
trivially. -/
def envTriv : ExecEnv :=
  ⟨fun _ => none, fun _ => none, fun _ => none, fun _ => true,
    fun _ => none, fun _ => none, fun _ => none, fun _ => none⟩

/-- A swap detail value for exercising the requote loop. -/
def sLoop : SwapAmount := ⟨wB, wA, .dict (wDict 50 60), 50, 60, 59, "Algofi", 0⟩

/-! ## Theorems -/

/-- For non-negative inputs the intended scale/unscale pair loses less than one
unit of the smallest denomination: `0 ≤ x - unscale (scale x) < 10^-decimals`.
(Supporting lemma about the intended semantics; the methods as written in the
source never reach their arithmetic, see the C8 theorem below.) -/
theorem unscale_scale_error_lt (d : Nat) (x : ℚ) (hx : 0 ≤ x) :
    0 ≤ x - unscaleAmt d (scaleAmt d x) ∧
      x - unscaleAmt d (scaleAmt d x) < 1 / (10 : ℚ) ^ d := by
  have hpow : (0 : ℚ) < (10 : ℚ) ^ d := by positivity
  have hxs : (0 : ℚ) ≤ x * (10 : ℚ) ^ d := by positivity
  have hsc : scaleAmt d x = ⌊x * (10 : ℚ) ^ d⌋ := by
    unfold scaleAmt pyInt
    simp [hxs]
  constructor
  · unfold unscaleAmt
    rw [hsc]
    rw [sub_nonneg, div_le_iff₀ hpow]
    exact Int.floor_le _
  · unfold unscaleAmt
    rw [hsc]
    rw [sub_lt_iff_lt_add, div_add_div_same, lt_div_iff₀ hpow]
    have := Int.lt_floor_add_one (x * (10 : ℚ) ^ d)
    linarith

/-- C8: the claim says `get_scaled_amount` / `get_unscaled_from_scaled_amount`
are pure with no error conditions and round-trip within `10^-decimals`.  The
code contradicts its own docstrings ("scaled by asset's decimals"): both
methods read `self.num_decimal_places`, an attribute the `AlgoAsset` dataclass
does not define (its field is `decimals`), so every call — for every asset and
every amount — raises `AttributeError` instead of computing anything. -/
theorem c8_scale_methods_always_raise (a : AlgoAsset) (x : ℚ) (n : Int) :
    a.get_scaled_amount x = .error (.attributeError "num_decimal_places") ∧
      a.get_unscaled_from_scaled_amount n = .error (.attributeError "num_decimal_places") := by
  constructor <;> rfl

/-- Every successful best-quote selection echoes back the input amount, the
asset pair and the slippage it was asked about (shared helper lemma). -/
theorem get_highest_from_ok_fields (q : Quotes) (fa ta : AlgoAsset) (amt sl : ℚ)
    (s : SwapAmount) (h : get_highest_swap_amount_out_from q fa ta amt sl = .ok s) :
    s.amount_in = amt ∧ s.from_asset = fa ∧ s.to_asset = ta ∧ s.slippage = sl := by
  unfold get_highest_swap_amount_out_from at h
  repeat' (first | split at h | dsimp only at h)
  all_goals cases h
  all_goals exact ⟨rfl, rfl, rfl, rfl⟩

/-- The orchestrator-level form of the previous lemma. -/
theorem legQuote_ok_fields (env : OrchEnv) (fa ta : AlgoAsset) (amt sl : ℚ)
    (s : SwapAmount) (h : legQuote env fa ta amt sl = .ok s) :
    s.amount_in = amt ∧ s.from_asset = fa ∧ s.to_asset = ta ∧ s.slippage = sl :=
  get_highest_from_ok_fields _ _ _ _ _ _ h

/-- C3 counterexample: with an empty quote mapping, best-quote selection does
NOT fail with a `NoQuoteAvailable` error — the repository defines no such
error class — it raises `UnboundLocalError` for the unbound local `quote`,
the first unassigned keyword argument that the final `return SwapAmount(...)`
(helpers.py line 423) evaluates. -/
theorem c3_no_quote_counterexample :
    get_highest_swap_amount_out_from ⟨none, none, none⟩ wA wB 50 0 =
      .error (.unboundLocalError "quote") ∧
      PyErr.unboundLocalError "quote" ≠ PyErr.botError "NoQuoteAvailable" :=
  ⟨rfl, by decide⟩

/-- C3 (amended): when the quote mapping is empty, `get_highest_swap_amount_out`
fails by raising `UnboundLocalError` on the local `quote` — Python evaluates
the final return's keyword arguments left to right, and `quote` (the third
argument) is the first unassigned one, before `higher_amt` — not a
`NoQuoteAvailable` error, which the repository never defines; nothing catches
the exception, so it propagates to the caller as a non-retryable failure of
that leg. -/
theorem c3_empty_mapping_raises (fa ta : AlgoAsset) (amt sl : ℚ) :
    get_highest_swap_amount_out_from ⟨none, none, none⟩ fa ta amt sl =
      .error (.unboundLocalError "quote") := rfl

/-- C2: the claim says best-quote selection returns the max-`amount_out` entry
for every combination of present adapters, tinyman included.  The code
cannot: with a Tinyman entry present, computing the Tinyman comparison
amounts (helpers.py lines 339-343) calls
`AlgoAsset.get_unscaled_from_scaled_amount`, which always raises
`AttributeError` (the same slip as C8), so selection raises instead of
returning anything — first conjunct, for every tinyman-containing mapping.
On tinyman-free mappings, where the slip is not hit, the selection does
return one of the mapping's entries whose raw `amount_out` (not the
slippage-adjusted figure) dominates every entry — second conjunct, the
claim's evident intent. -/
theorem c2_tinyman_raises_else_max :
    (∀ (oa : Option QuoteDict) (t : TinymanQuote) (op : Option QuoteDict)
        (fa ta : AlgoAsset) (amt sl : ℚ),
      get_highest_swap_amount_out_from ⟨oa, some t, op⟩ fa ta amt sl =
        .error (.attributeError "num_decimal_places")) ∧
    (∀ (q : Quotes) (fa ta : AlgoAsset) (amt sl : ℚ),
      q.tinyman = none → q.selEntries ≠ [] →
      ∃ s, get_highest_swap_amount_out_from q fa ta amt sl = .ok s ∧
        (s.dex, s.quote, s.amount_out) ∈ q.selEntries ∧
        ∀ e ∈ q.selEntries, e.2.2 ≤ s.amount_out) := by
  constructor
  · intro oa t op fa ta amt sl
    rfl
  · intro q fa ta amt sl ht hne
    obtain ⟨oa, ot, op⟩ := q
    dsimp only at ht
    subst ht
    rcases oa with _ | a <;> rcases op with _ | p
    · simp [Quotes.selEntries] at hne
    · refine ⟨_, rfl, ?_, ?_⟩ <;> simp [Quotes.selEntries]
    · refine ⟨_, rfl, ?_, ?_⟩ <;> simp [Quotes.selEntries]
    · dsimp only [get_highest_swap_amount_out_from]
      split_ifs with h1
      · refine ⟨_, rfl, ?_, ?_⟩
        · simp [Quotes.selEntries]
        · intro e he
          simp [Quotes.selEntries] at he
          rcases he with rfl | rfl
          · exact le_refl _
          · exact h1
      · push_neg at h1
        refine ⟨_, rfl, ?_, ?_⟩
        · simp [Quotes.selEntries]
        · intro e he
          simp [Quotes.selEntries] at he
          rcases he with rfl | rfl
          · exact le_of_lt h1
          · exact le_refl _

/-- C2 witness: a mapping holding only a Tinyman entry makes the selection
raise `AttributeError`; the tinyman-free mapping with Algofi quoting 100 and
Pact quoting 95 yields the dominating entry. -/
theorem c2_witness :
    get_highest_swap_amount_out_from ⟨none, some tQuote, none⟩ wA wB 50 0 =
        .error (.attributeError "num_decimal_places") ∧
      (qAlgofiPact.tinyman = none ∧ qAlgofiPact.selEntries ≠ []) ∧
      ∃ s, get_highest_swap_amount_out_from qAlgofiPact wA wB 50 0 = .ok s ∧
        (s.dex, s.quote, s.amount_out) ∈ qAlgofiPact.selEntries ∧
        ∀ e ∈ qAlgofiPact.selEntries, e.2.2 ≤ s.amount_out :=
  ⟨c2_tinyman_raises_else_max.1 none tQuote none wA wB 50 0,
    ⟨rfl, by simp [qAlgofiPact, Quotes.selEntries]⟩,
    c2_tinyman_raises_else_max.2 qAlgofiPact wA wB 50 0 rfl
      (by simp [qAlgofiPact, Quotes.selEntries])⟩

/-- C1: in both bots, evaluation chains the legs by feeding each leg's raw
(un-slippage-adjusted) `amount_out` to the next leg as its input amount — the
hypotheses quote leg k+1 exactly at leg k's `amount_out` — and the round trip
is declared profitable (equivalently: execution is entered, so the submit
trace is nonempty) if and only if the final leg's `amount_out` is greater
than or equal to the original trade amount plus `min_profit`, boundary
included. -/
theorem c1_roundtrip_profit_iff :
    (∀ (env : OrchEnv) (A B : AlgoAsset) (trade_amt min_profit slippage : ℚ)
        (s1 s2 : SwapAmount),
      legQuote env A B trade_amt slippage = .ok s1 →
      legQuote env B A s1.amount_out slippage = .ok s2 →
      ((do_round_trip2 env A B trade_amt min_profit slippage).2 ≠ [] ↔
        trade_amt + min_profit ≤ s2.amount_out)) ∧
    (∀ (env : OrchEnv) (A B C : AlgoAsset) (trade_amt min_profit slippage : ℚ)
        (s1 s2 s3 : SwapAmount),
      legQuote env A B trade_amt slippage = .ok s1 →
      legQuote env B C s1.amount_out slippage = .ok s2 →
      legQuote env C A s2.amount_out slippage = .ok s3 →
      ((do_round_trip_helper env A B C trade_amt min_profit slippage).2 ≠ [] ↔
        trade_amt + min_profit ≤ s3.amount_out)) := by
  constructor
  · intro env A B trade_amt min_profit slippage s1 s2 h1 h2
    unfold do_round_trip2
    rw [h1]
    dsimp only
    rw [h2]
    dsimp only
    by_cases hc : s2.amount_out ≥ trade_amt + min_profit
    · rw [if_pos hc]
      constructor
      · intro _; exact hc
      · intro _
        repeat' split
        all_goals simp
    · rw [if_neg hc]
      constructor
      · intro h; exact absurd rfl h
      · intro h; exact absurd h hc
  · intro env A B C trade_amt min_profit slippage s1 s2 s3 h1 h2 h3
    unfold do_round_trip_helper
    rw [h1]
    dsimp only
    rw [h2]
    dsimp only
    rw [h3]
    dsimp only
    by_cases hc : s3.amount_out ≥ trade_amt + min_profit
    · rw [if_pos hc]
      constructor
      · intro _; exact hc
      · intro _
        repeat' split
        all_goals simp
    · rw [if_neg hc]
      constructor
      · intro h; exact absurd rfl h
      · intro h; exact absurd h hc

/-- C1 witness: the spec's scenario — trade 50, leg 1 quotes 60, the final
leg quotes 52, `min_profit = 1` — is profitable in both the 2-leg and the
3-leg evaluator (52 ≥ 51). -/
theorem c1_witness :
    ((do_round_trip2 envProfit wA wB 50 1 0).2 ≠ [] ↔ 50 + 1 ≤ (52 : ℚ)) ∧
      ((do_round_trip_helper envProfit wA wB wC 50 1 0).2 ≠ [] ↔ 50 + 1 ≤ (52 : ℚ)) :=
  ⟨c1_roundtrip_profit_iff.1 envProfit wA wB 50 1 0 _ _ rfl rfl,
    c1_roundtrip_profit_iff.2 envProfit wA wB wC 50 1 0 _ _ _ rfl rfl rfl⟩

/-- The two-way orchestrator's submit trace has one of three shapes (shared
helper lemma): no call, only the leg-1 call, or the leg-1 call followed by a
leg-2 call whose details were re-quoted at leg 1's settled output. -/
theorem do_round_trip2_trace_shape (env : OrchEnv) (A B : AlgoAsset)
    (trade_amt min_profit slippage : ℚ) :
    (do_round_trip2 env A B trade_amt min_profit slippage).2 = [] ∨
    (∃ s1, legQuote env A B trade_amt slippage = .ok s1 ∧
      (do_round_trip2 env A B trade_amt min_profit slippage).2 = [⟨s1, false⟩]) ∨
    (∃ s1 out1 s2, legQuote env A B trade_amt slippage = .ok s1 ∧
      env.submit s1 false = .ok (some out1) ∧
      legQuote env B A out1.amount_out slippage = .ok s2 ∧
      (do_round_trip2 env A B trade_amt min_profit slippage).2 =
        [⟨s1, false⟩, ⟨s2, true⟩]) := by
  unfold do_round_trip2
  repeat' split
  all_goals first
    | exact Or.inl rfl
    | exact Or.inr (Or.inl ⟨_, by assumption, rfl⟩)
    | exact Or.inr (Or.inr ⟨_, _, _, by assumption, by assumption, by assumption, rfl⟩)

/-- The three-way helper's submit trace has one of four shapes (shared helper
lemma): each leg k+1 call is re-quoted at leg k's settled output. -/
theorem do_round_trip_helper_trace_shape (env : OrchEnv) (A B C : AlgoAsset)
    (trade_amt min_profit slippage : ℚ) :
    (do_round_trip_helper env A B C trade_amt min_profit slippage).2 = [] ∨
    (∃ s1, legQuote env A B trade_amt slippage = .ok s1 ∧
      (do_round_trip_helper env A B C trade_amt min_profit slippage).2 = [⟨s1, false⟩]) ∨
    (∃ s1 out1 s2, legQuote env A B trade_amt slippage = .ok s1 ∧
      env.submit s1 false = .ok (some out1) ∧
      legQuote env B C out1.amount_out slippage = .ok s2 ∧
      (do_round_trip_helper env A B C trade_amt min_profit slippage).2 =
        [⟨s1, false⟩, ⟨s2, true⟩]) ∨
    (∃ s1 out1 s2 out2 s3, legQuote env A B trade_amt slippage = .ok s1 ∧
      env.submit s1 false = .ok (some out1) ∧
      legQuote env B C out1.amount_out slippage = .ok s2 ∧
      env.submit s2 true = .ok (some out2) ∧
      legQuote env C A out2.amount_out slippage = .ok s3 ∧
      (do_round_trip_helper env A B C trade_amt min_profit slippage).2 =
        [⟨s1, false⟩, ⟨s2, true⟩, ⟨s3, true⟩]) := by
  unfold do_round_trip_helper
  repeat' split
  all_goals first
    | exact Or.inl rfl
    | exact Or.inr (Or.inl ⟨_, by assumption, rfl⟩)
    | exact Or.inr (Or.inr (Or.inl
        ⟨_, _, _, by assumption, by assumption, by assumption, rfl⟩))
    | exact Or.inr (Or.inr (Or.inr
        ⟨_, _, _, _, _, by assumption, by assumption, by assumption, by assumption,
          by assumption, rfl⟩))

/-- C4: in both bots' executed round trips, the leg-1 `submit_swap` call has
requote-on-failure disabled, and every later call has it enabled and carries
details re-quoted at the previous leg's actual settled output (its
`amount_in` IS that settled `amount_out`, not the original plan's quoted
amount). -/
theorem c4_requote_flags_and_chaining (env : OrchEnv) (A B C : AlgoAsset)
    (trade_amt min_profit slippage : ℚ) :
    ((∀ c, (do_round_trip2 env A B trade_amt min_profit slippage).2.head? = some c →
        c.allow_requote = false) ∧
      (∀ c2, (do_round_trip2 env A B trade_amt min_profit slippage).2.get? 1 = some c2 →
        c2.allow_requote = true ∧
        ∃ c1 out1,
          (do_round_trip2 env A B trade_amt min_profit slippage).2.get? 0 = some c1 ∧
          c1.allow_requote = false ∧
          env.submit c1.details false = .ok (some out1) ∧
          legQuote env B A out1.amount_out slippage = .ok c2.details ∧
          c2.details.amount_in = out1.amount_out)) ∧
    ((∀ c, (do_round_trip_helper env A B C trade_amt min_profit slippage).2.head? = some c →
        c.allow_requote = false) ∧
      (∀ c2, (do_round_trip_helper env A B C trade_amt min_profit slippage).2.get? 1 = some c2 →
        c2.allow_requote = true ∧
        ∃ c1 out1,
          (do_round_trip_helper env A B C trade_amt min_profit slippage).2.get? 0 = some c1 ∧
          c1.allow_requote = false ∧
          env.submit c1.details false = .ok (some out1) ∧
          legQuote env B C out1.amount_out slippage = .ok c2.details ∧
          c2.details.amount_in = out1.amount_out) ∧
      (∀ c3, (do_round_trip_helper env A B C trade_amt min_profit slippage).2.get? 2 = some c3 →
        c3.allow_requote = true ∧
        ∃ c2 out2,
          (do_round_trip_helper env A B C trade_amt min_profit slippage).2.get? 1 = some c2 ∧
          c2.allow_requote = true ∧
          env.submit c2.details true = .ok (some out2) ∧
          legQuote env C A out2.amount_out slippage = .ok c3.details ∧
          c3.details.amount_in = out2.amount_out)) := by
  constructor
  · rcases do_round_trip2_trace_shape env A B trade_amt min_profit slippage with
      h | ⟨s1, hq1, h⟩ | ⟨s1, out1, s2, hq1, hsub, hq2, h⟩ <;> rw [h] <;>
      refine ⟨fun c hc => ?_, fun c2 hc2 => ?_⟩
    · cases hc
    · cases hc2
    · cases hc
      rfl
    · cases hc2
    · cases hc
      rfl
    · cases hc2
      exact ⟨rfl, ⟨s1, false⟩, out1, rfl, rfl, hsub, hq2,
        (legQuote_ok_fields env B A out1.amount_out slippage s2 hq2).1⟩
  · rcases do_round_trip_helper_trace_shape env A B C trade_amt min_profit slippage with
      h | ⟨s1, hq1, h⟩ | ⟨s1, out1, s2, hq1, hsub, hq2, h⟩ |
      ⟨s1, out1, s2, out2, s3, hq1, hsub1, hq2, hsub2, hq3, h⟩ <;> rw [h] <;>
      refine ⟨fun c hc => ?_, fun c2 hc2 => ?_, fun c3 hc3 => ?_⟩
    · cases hc
    · cases hc2
    · cases hc3
    · cases hc
      rfl
    · cases hc2
    · cases hc3
    · cases hc
      rfl
    · cases hc2
      exact ⟨rfl, ⟨s1, false⟩, out1, rfl, rfl, hsub, hq2,
        (legQuote_ok_fields env B C out1.amount_out slippage s2 hq2).1⟩
    · cases hc3
    · cases hc
      rfl
    · cases hc2
      exact ⟨rfl, ⟨s1, false⟩, out1, rfl, rfl, hsub1, hq2,
        (legQuote_ok_fields env B C out1.amount_out slippage s2 hq2).1⟩
    · cases hc3
      exact ⟨rfl, ⟨s2, true⟩, out2, rfl, rfl, hsub2, hq3,
        (legQuote_ok_fields env C A out2.amount_out slippage s3 hq3).1⟩

/-- C4 witness: in the concrete profitable two-way run, the second submit call
has requoting enabled and its details were re-quoted at leg 1's settled
output. -/
theorem c4_witness :
    (SubmitCall.mk ⟨wA, wB, .dict (wDict 60 52), 60, 52, 52, "Algofi", 0⟩ true).allow_requote
        = true ∧
      ∃ c1 out1, (do_round_trip2 envProfit wA wB 50 1 0).2.get? 0 = some c1 ∧
        c1.allow_requote = false ∧
        envProfit.submit c1.details false = .ok (some out1) ∧
        legQuote envProfit wB wA out1.amount_out 0 =
          .ok (SubmitCall.mk ⟨wA, wB, .dict (wDict 60 52), 60, 52, 52, "Algofi", 0⟩ true).details ∧
        (SubmitCall.mk ⟨wA, wB, .dict (wDict 60 52), 60, 52, 52, "Algofi", 0⟩
            true).details.amount_in = out1.amount_out :=
  (c4_requote_flags_and_chaining envProfit wA wB wC 50 1 0).1.2 _ (by
    norm_num [do_round_trip2, legQuote, get_highest_swap_amount_out_from, envProfit,
      profitTable, wDict, wA, wB])

/-- C5: in both bots, whenever a recorded submit call at position 2 or later
(a requote-enabled submission) terminates without producing a SwapOutcome,
the orchestrator immediately hits `sys.exit(1)` — which `run_bot`'s
`except Exception` does not catch, so the process stops rather than silently
retrying — and no later leg is attempted (the trace ends at that call).  In
particular a leg-2 failure in the 3-leg round trip is never followed by a
leg-3 attempt, and a leg-3 failure after a successful leg 2 is equally
fatal. -/
theorem c5_late_leg_no_outcome_fatal (env : OrchEnv) (A B C : AlgoAsset)
    (trade_amt min_profit slippage : ℚ) :
    (∀ c2, (do_round_trip_helper env A B C trade_amt min_profit slippage).2.get? 1 = some c2 →
      env.submit c2.details true = .ok none →
      (do_round_trip_helper env A B C trade_amt min_profit slippage).1 = .exited 1 ∧
      (do_round_trip_helper env A B C trade_amt min_profit slippage).2.length = 2 ∧
      run_bot_iteration (do_round_trip_helper env A B C trade_amt min_profit slippage).1 =
        .processExit 1) ∧
    (∀ c3, (do_round_trip_helper env A B C trade_amt min_profit slippage).2.get? 2 = some c3 →
      env.submit c3.details true = .ok none →
      (do_round_trip_helper env A B C trade_amt min_profit slippage).1 = .exited 1 ∧
      (do_round_trip_helper env A B C trade_amt min_profit slippage).2.length = 3 ∧
      run_bot_iteration (do_round_trip_helper env A B C trade_amt min_profit slippage).1 =
        .processExit 1) ∧
    (∀ c2, (do_round_trip2 env A B trade_amt min_profit slippage).2.get? 1 = some c2 →
      env.submit c2.details true = .ok none →
      (do_round_trip2 env A B trade_amt min_profit slippage).1 = .exited 1 ∧
      (do_round_trip2 env A B trade_amt min_profit slippage).2.length = 2 ∧
      run_bot_iteration (do_round_trip2 env A B trade_amt min_profit slippage).1 =
        .processExit 1) := by
  refine ⟨?_, ?_, ?_⟩
  · unfold do_round_trip_helper
    repeat' split
    all_goals intro c2 hc2 hnone
    all_goals (try cases hc2) <;> simp_all [run_bot_iteration]
  · unfold do_round_trip_helper
    repeat' split
    all_goals intro c3 hc3 hnone
    all_goals (try cases hc3) <;> simp_all [run_bot_iteration]
  · unfold do_round_trip2
    repeat' split
    all_goals intro c2 hc2 hnone
    all_goals (try cases hc2) <;> simp_all [run_bot_iteration]

/-- C5 witness: with leg 2 yielding no outcome, the concrete profitable
three-way run exits the process after exactly two submit calls (no leg-3
attempt); with legs 1-2 succeeding and leg 3 yielding no outcome, it exits
after exactly three. -/
theorem c5_witness :
    ((do_round_trip_helper envLeg2Fails wA wB wC 50 1 0).1 = .exited 1 ∧
      (do_round_trip_helper envLeg2Fails wA wB wC 50 1 0).2.length = 2 ∧
      run_bot_iteration (do_round_trip_helper envLeg2Fails wA wB wC 50 1 0).1 =
        .processExit 1) ∧
    ((do_round_trip_helper envLeg3Fails wA wB wC 50 1 0).1 = .exited 1 ∧
      (do_round_trip_helper envLeg3Fails wA wB wC 50 1 0).2.length = 3 ∧
      run_bot_iteration (do_round_trip_helper envLeg3Fails wA wB wC 50 1 0).1 =
        .processExit 1) :=
  ⟨(c5_late_leg_no_outcome_fatal envLeg2Fails wA wB wC 50 1 0).1 _
      (by
        norm_num [do_round_trip_helper, legQuote, get_highest_swap_amount_out_from,
          envLeg2Fails, profitTable, wDict, wA, wB, wC]
        rfl)
      (by norm_num [envLeg2Fails]),
    (c5_late_leg_no_outcome_fatal envLeg3Fails wA wB wC 50 1 0).2.1 _
      (by
        norm_num [do_round_trip_helper, legQuote, get_highest_swap_amount_out_from,
          envLeg3Fails, profitTable, wDict, wA, wB, wC]
        rfl)
      (by norm_num [envLeg3Fails, wA, wB, wC, wDict])⟩

/-- C6: the three-way orchestrator falls back to the reverse cyclic direction
exactly when the first direction concluded "unprofitable" (returned `False`
with no submissions): the overall outcome and submit trace are then those of
the reverse-direction round trip; and when the first direction succeeded, the
reverse direction is not evaluated at all. -/
theorem c6_direction_fallback (env : OrchEnv) (A B C : AlgoAsset)
    (trade_amt min_profit slippage : ℚ) :
    (do_round_trip_helper env A B C trade_amt min_profit slippage = (.ret false, []) →
      do_round_trip3 env A B C trade_amt min_profit slippage =
        do_round_trip_helper env A C B trade_amt min_profit slippage) ∧
    (∀ t1, do_round_trip_helper env A B C trade_amt min_profit slippage = (.ret true, t1) →
      do_round_trip3 env A B C trade_amt min_profit slippage = (.ret true, t1)) := by
  constructor
  · intro h
    unfold do_round_trip3
    rw [h]
    dsimp only
    rcases hh : do_round_trip_helper env A C B trade_amt min_profit slippage with ⟨r2, t2⟩
    simp
  · intro t1 h
    unfold do_round_trip3
    rw [h]

/-- C6 witness: the spec's scenario — A→B→C→A closes at 49 < 51 while
A→C→B→A closes at 52 ≥ 51 — makes the orchestrator's outcome exactly the
reverse direction's round trip. -/
theorem c6_witness :
    do_round_trip3 envDirection wA wB wC 50 1 0 =
      do_round_trip_helper envDirection wA wC wB 50 1 0 :=
  (c6_direction_fallback envDirection wA wB wC 50 1 0).1 (by
    norm_num [do_round_trip_helper, legQuote, get_highest_swap_amount_out_from, envDirection,
      directionTable, wDict, wA, wB, wC])

/-- C7: the claim says a single adapter failure only removes that adapter's
entry and aggregation succeeds whenever at least one adapter could quote.
The code cannot aggregate at all: `get_swap_quotes`'s first statement
(helpers.py line 260) scales the input with `from_asset.get_scaled_amount`,
which always raises `AttributeError` (the same slip as C8) — for every pool
mapping, asset pair, amount and slippage, before any per-adapter logic is
reached (and before the unconditional `pools["pactfi"]` subscript at line
265, which would itself fail the whole aggregation whenever the pactfi pool
is absent). -/
theorem c7_aggregation_always_raises (pools : Pools) (fa ta : AlgoAsset) (amt sl : ℚ) :
    get_swap_quotes pools fa ta amt sl =
      .error (.attributeError "num_decimal_places") := rfl

/-- C9: with `retry_with_new_quote` true, the `submit_swap` requote loop has
no attempt cap: it can never return `None` — after any number of iterations
it has either succeeded, had an exception escape from the requote calls, or
is still looping — and under a permanently failing adapter with requoting
always succeeding, it is still running after every finite number of
iterations (termination is not guaranteed). -/
theorem c9_requote_loop_unbounded :
    (∀ (attempt : SwapAmount → PyResult SwapAmount)
        (requote : SwapAmount → Except PyErr SwapAmount) (fuel : Nat) (s : SwapAmount),
      submit_swap_loop attempt requote true fuel s ≠ .done none) ∧
    (∀ (attempt : SwapAmount → PyResult SwapAmount)
        (requote : SwapAmount → Except PyErr SwapAmount),
      (∀ s, ∃ e, attempt s = .exc e) →
      (∀ s, ∃ s2, requote s = .ok s2) →
      ∀ (fuel : Nat) (s : SwapAmount),
        ∃ s3, submit_swap_loop attempt requote true fuel s = .spinning s3) := by
  constructor
  · intro attempt requote fuel
    induction fuel with
    | zero =>
      intro s
      simp [submit_swap_loop]
    | succ n ih =>
      intro s
      unfold submit_swap_loop
      rcases hA : attempt s with o | e | c
      · simp
      · rw [if_pos rfl]
        rcases hR : requote s with e2 | s2
        · simp
        · exact ih s2
      · simp
  · intro attempt requote hatt hreq fuel
    induction fuel with
    | zero =>
      intro s
      exact ⟨s, rfl⟩
    | succ n ih =>
      intro s
      obtain ⟨e, hA⟩ := hatt s
      obtain ⟨s2, hR⟩ := hreq s
      unfold submit_swap_loop
      rw [hA]
      rw [if_pos rfl]
      rw [hR]
      exact ih s2

/-- C9 witness: with an always-failing attempt and an identity requote, the
loop is still spinning after 5 iterations. -/
theorem c9_witness :
    ∃ s3, submit_swap_loop (fun _ => .exc (.botError "Exception")) (fun s => .ok s)
        true 5 sLoop = .spinning s3 :=
  c9_requote_loop_unbounded.2 (fun _ => .exc (.botError "Exception")) (fun s => .ok s)
    (fun _ => ⟨_, rfl⟩) (fun s => ⟨s, rfl⟩) 5 sLoop

/-- C10: the three-way bot's executor dispatches only on "algofi" versus
everything-else.  Whenever best-quote selection crowns Pact, the returned
`SwapAmount` carries the Pact quote dict; its dex "Pact" lowercases to
"pact" ≠ "algofi", so the attempt takes the default (Tinyman) code path,
whose attribute access `quote.amount_out_with_slippage.amount` fails with
`AttributeError` on a dict — for every execution environment — and with
requoting disabled `submit_swap` returns `None`: a Pact-selected leg never
completes through this executor. -/
theorem c10_pact_leg_never_executes (q : Quotes) (fa ta : AlgoAsset) (amt sl : ℚ)
    (s : SwapAmount) (env : ExecEnv) (rq : SwapAmount → Except PyErr SwapAmount)
    (h : get_highest_swap_amount_out_from q fa ta amt sl = .ok s) (hdex : s.dex = "Pact") :
    (∃ d, s.quote = .dict d ∧ q.pactfi = some d) ∧
      pyLower s.dex ≠ "algofi" ∧
      submit_swap_attempt_threeway env s = .exc (.attributeError "amount_out_with_slippage") ∧
      ∀ fuel : Nat,
        submit_swap_loop (submit_swap_attempt_threeway env) rq false (fuel + 1) s =
          .done none := by
  unfold get_highest_swap_amount_out_from at h
  repeat' (first | split at h | dsimp only at h)
  all_goals cases h
  all_goals dsimp only at hdex
  all_goals first
    | exact absurd hdex (by decide)
    | exact ⟨⟨_, rfl, by assumption⟩, show pyLower "Pact" ≠ "algofi" by decide, rfl,
        fun fuel => rfl⟩

/-- C10 witness: on a mapping where only Pact quoted, the selection yields the
"Pact" swap and the three-way executor's attempt on it raises
`AttributeError`; with requoting disabled the call returns `None`. -/
theorem c10_witness :
    (∃ d, sPact.quote = .dict d ∧ qPactOnly.pactfi = some d) ∧
      pyLower sPact.dex ≠ "algofi" ∧
      submit_swap_attempt_threeway envTriv sPact =
        .exc (.attributeError "amount_out_with_slippage") ∧
      ∀ fuel : Nat,
        submit_swap_loop (submit_swap_attempt_threeway envTriv) (fun s => .ok s) false
          (fuel + 1) sPact = .done none :=
  c10_pact_leg_never_executes qPactOnly wA wB 50 0 sPact envTriv (fun s => .ok s) rfl rfl
